import Mathlib

/-!
Verification of the AQVH quantum-defense repository: shallow embedding of the
delivered Flask transaction handlers (server.py, defense_server.py) and of the
QRNG / E91 / CHSH / entropy / performance-tracker core that the test suite
(test_qrng_system.py) exercises.  Components absent from the delivered sources
are modelled from the specification, as marked on each definition.
-/

/-- An HTTP JSON response as produced by the two delivered Flask handlers:
the HTTP status code together with the "status" and "message" JSON fields. -/
structure HttpResponse where
  code : Nat
  status : String
  message : String
deriving Repr, DecidableEq

/-- A transaction request body: the two fields the handlers read
(data.get of mode, defaulting to classical, and of attack, defaulting to
False) plus an arbitrary rest of the payload, which the handlers never read. -/
structure TxRequest (α : Type) where
  mode : String
  attack : Bool
  payload : α

/-- The QBER reported by the quantum branch of server.py: 0.27 under attack
(the spike attributed to Eve), 0.02 otherwise. -/
def server_qber (attack : Bool) : ℚ := if attack then 27/100 else 2/100

/-- The QBER reported by defense_the quantum branch of server.py: 0.42 under attack,
0.0001 otherwise (the logged 0.01 percent). -/
def defense_qber (attack : Bool) : ℚ := if attack then 42/100 else 1/10000

/-- The QBER security bound used throughout the repository: 0.11. -/
def qberThreshold : ℚ := 11/100

/-- server.py, process_transaction (POST path): quantum mode under attack
returns status defended, quantum mode otherwise success; classical mode under
attack returns hacked, otherwise success.  Every branch is a plain jsonify
response, HTTP 200. -/
def process_transaction {α : Type} (r : TxRequest α) : HttpResponse :=
  if r.mode = "quantum" then
    if r.attack then
      { code := 200, status := "defended", message := "QBER Spike Detected. Keys Discarded." }
    else
      { code := 200, status := "success", message := "Secured by Quantum Shield." }
  else
    if r.attack then
      { code := 200, status := "hacked", message := "TLS Broken. Data Stolen." }
    else
      { code := 200, status := "success", message := "Transfer Complete (Standard)." }

/-- defense_server.py, transmit_intel (POST path): same mode/attack decision
structure as process_transaction, with the military-themed messages. -/
def transmit_intel {α : Type} (r : TxRequest α) : HttpResponse :=
  if r.mode = "quantum" then
    if r.attack then
      { code := 200, status := "defended", message := "HOSTILE INTERCEPT DETECTED. LINK CUT." }
    else
      { code := 200, status := "success", message := "INTEL SECURED. UPLINK COMPLETE." }
  else
    if r.attack then
      { code := 200, status := "hacked", message := "SIGNAL INTERCEPTED. INTEL LEAKED." }
    else
      { code := 200, status := "success", message := "Radio Transmission Complete." }

/-- Modelled from the spec: one E91 sifting round (section 3, E91Round) —
the basis choices and measurement outcomes of Alice and Bob.  The round is
"matched" when the bases are equal.  The quantum_core module holding
E91Protocol was not delivered in the sources. -/
structure E91Round where
  aliceBasis : Bool
  bobBasis : Bool
  aliceBit : Bool
  bobBit : Bool
deriving Repr, DecidableEq

/-- Modelled from the spec: the E91Result record returned by
run_e91_protocol (section 3, E91Result). -/
structure E91Result where
  total_rounds : Nat
  sifted_key_length : Nat
  shared_key : String
  qber : ℚ
  secure : Bool
deriving Repr, DecidableEq

/-- Modelled from the spec: sifting keeps exactly the rounds whose bases
match (section 4.4). -/
def siftedRounds (rounds : List E91Round) : List E91Round :=
  rounds.filter fun r => r.aliceBasis == r.bobBasis

/-- Modelled from the spec: the number of sifted rounds where the outcomes
of Alice and Bob disagree. -/
def errorCount (rounds : List E91Round) : Nat :=
  (siftedRounds rounds).countP fun r => r.aliceBit != r.bobBit

/-- Modelled from the spec: qber = disagreements / sifted_key_length,
0 if there are no sifted bits (section 4.4). -/
def e91Qber (rounds : List E91Round) : ℚ :=
  if (siftedRounds rounds).length = 0 then 0
  else (errorCount rounds : ℚ) / ((siftedRounds rounds).length : ℚ)

/-- Modelled from the spec: the sifted key, the outcomes of Alice on matched
rounds written as a bit string. -/
def e91Key (rounds : List E91Round) : String :=
  String.mk ((siftedRounds rounds).map fun r => if r.aliceBit then '1' else '0')

/-- Modelled from the spec: the deterministic core of one E91 run over a
given list of rounds — sift, compute qber, decide security by the 0.11
bound, and discard (empty) the key when insecure (section 4.4). -/
def processRounds (rounds : List E91Round) : E91Result :=
  let qber := e91Qber rounds
  let secure := decide (qber < qberThreshold)
  { total_rounds := rounds.length
    sifted_key_length := (siftedRounds rounds).length
    shared_key := if secure then e91Key rounds else ""
    qber := qber
    secure := secure }

/-- Modelled from the spec: the idealized randomness of one round, at the
expected rates — bases match in half the rounds (alternating), and with an
eavesdropper the intercept-resend disturbance makes a quarter of the matched
rounds disagree (section 4.4: elevated error probability 0.25). -/
def idealRound (eavesdropper : Bool) (i : Nat) : E91Round :=
  if i % 2 = 0 then
    { aliceBasis := true, bobBasis := true, aliceBit := false,
      bobBit := eavesdropper && ((i / 2) % 4 == 0) }
  else
    { aliceBasis := true, bobBasis := false, aliceBit := false, bobBit := false }

/-- Modelled from the spec: the idealized tape of num_rounds rounds. -/
def idealTape (numRounds : Nat) (eavesdropper : Bool) : List E91Round :=
  (List.range numRounds).map (idealRound eavesdropper)

/-- Modelled from the spec: run_e91_protocol(num_rounds, eavesdropper),
the probabilistic rounds replaced by the idealized tape at the expected
rates of the spec. -/
def run_e91_protocol (numRounds : Nat) (eavesdropper : Bool) : E91Result :=
  processRounds (idealTape numRounds eavesdropper)

/-- Modelled from the spec: the trial tallies for one CHSH basis pair —
how many of the shots agreed and how many disagreed.  The quantum_core
module holding bell_test_chsh was not delivered in the sources. -/
structure PairCounts where
  agree : Nat
  disagree : Nat
deriving Repr, DecidableEq

/-- Modelled from the spec: the correlation estimator for one basis pair,
(agreements - disagreements) / trials, 0 when there are no trials. -/
def correlation (c : PairCounts) : ℚ :=
  if c.agree + c.disagree = 0 then 0
  else ((c.agree : ℚ) - (c.disagree : ℚ)) / ((c.agree : ℚ) + (c.disagree : ℚ))

/-- Modelled from the spec: the tallies of the four CHSH basis-pair
combinations ab, ab-prime, a-prime-b, a-prime-b-prime. -/
structure BellCounts where
  ab : PairCounts
  abp : PairCounts
  apb : PairCounts
  apbp : PairCounts
deriving Repr, DecidableEq

/-- Modelled from the spec: the BellResult record (section 3) — the four
correlations, the CHSH statistic S, the violation flag and the coarse
security label. -/
structure BellResult where
  E_ab : ℚ
  E_abp : ℚ
  E_apb : ℚ
  E_apbp : ℚ
  S : ℚ
  bell_violation : Bool
  security_level : String
deriving Repr, DecidableEq

/-- The CHSH classical bound: 2. -/
def chshClassicalBound : ℚ := 2

/-- Modelled from the spec: bell_test_chsh (section 4.5) — estimate the four
correlations, combine them into the alternating sum S of the four,
flag a Bell violation when the absolute value of S exceeds 2, and label the
security level by coarse bands. -/
def bell_test_chsh (c : BellCounts) : BellResult :=
  let eab := correlation c.ab
  let eabp := correlation c.abp
  let eapb := correlation c.apb
  let eapbp := correlation c.apbp
  let S := eab - eabp + eapb + eapbp
  { E_ab := eab, E_abp := eabp, E_apb := eapb, E_apbp := eapbp
    S := S
    bell_violation := decide (chshClassicalBound < |S|)
    security_level :=
      if 5/2 < |S| then "HIGH" else if chshClassicalBound < |S| then "MODERATE"
      else "NONE/CLASSICAL" }

/-- Modelled from the spec: the PerformanceTracker state (sections 3 and
4.7) — the monotonic bit counter plus the sum and number of entropy
observations backing the running mean. -/
structure PerformanceTracker where
  total_bits_generated : Nat
  entropy_sum : ℚ
  samples : Nat
deriving Repr, DecidableEq

/-- Modelled from the spec: the fresh tracker, all counters zero. -/
def PerformanceTracker.init : PerformanceTracker :=
  { total_bits_generated := 0, entropy_sum := 0, samples := 0 }

/-- Modelled from the spec: record(bits_generated, entropy_value) adds the
bits to the total and folds the entropy into the running mean; nothing is
ever removed or rolled back.  The spec requires record to run under mutual
exclusion, so a concurrent execution is some interleaving of these atomic
updates. -/
def PerformanceTracker.record (t : PerformanceTracker) (bits : Nat) (e : ℚ) :
    PerformanceTracker :=
  { total_bits_generated := t.total_bits_generated + bits
    entropy_sum := t.entropy_sum + e
    samples := t.samples + 1 }

/-- Modelled from the spec: a schedule of record calls applied in order —
any interleaving of concurrent atomic record calls is such a list. -/
def PerformanceTracker.recordAll (t : PerformanceTracker)
    (updates : List (Nat × ℚ)) : PerformanceTracker :=
  updates.foldl (fun s u => s.record u.1 u.2) t

/-- Modelled from the spec: generate_bits(n) (section 4.1) — one independent
measurement per bit, drawn here from an abstract measurement tape, written
as the characters 0 and 1. -/
def generate_random_bits (n : Nat) (tape : Nat → Bool) : String :=
  String.mk ((List.range n).map fun i => if tape i then '1' else '0')

/-- Modelled from the spec: XOR a bit list against a keystream starting at
stream position i. -/
def xorStream (ks : Nat → Bool) : Nat → List Bool → List Bool
  | _, [] => []
  | i, b :: bs => (xor b (ks i)) :: xorStream ks (i + 1) bs

/-- Modelled from the spec: the key material held after set_key. -/
structure CryptoState where
  key : List Bool
deriving Repr, DecidableEq

/-- Modelled from the spec: set_key(bitstring) stores the quantum-derived
key material (section 6). -/
def set_key (bits : List Bool) : CryptoState := { key := bits }

/-- Modelled from the spec: the external AES-256-GCM primitive is a black
box (section 6); GCM encrypts in counter mode, modelled as a keystream
determined by the key and the nonce. -/
def keystream (st : CryptoState) (nonce : Nat) (i : Nat) : Bool :=
  st.key.getD ((nonce + i) % (st.key.length + 1)) false

/-- Modelled from the spec: encrypt(message) under the stored key and a
nonce — XOR of the message with the keystream. -/
def encrypt (st : CryptoState) (nonce : Nat) (m : List Bool) : List Bool :=
  xorStream (keystream st nonce) 0 m

/-- Modelled from the spec: decrypt(nonce, ciphertext) — XOR of the
ciphertext with the same keystream. -/
def decrypt (st : CryptoState) (nonce : Nat) (c : List Bool) : List Bool :=
  xorStream (keystream st nonce) 0 c

/-- Modelled from the spec: the error taxonomy of section 7. -/
inductive CoreError where
  | InvalidInput : CoreError
  | BackendUnavailable : CoreError
  | AggregationError : CoreError
deriving Repr, DecidableEq

/-- Modelled from the spec: the Shannon entropy of two outcome counts
normalized to sum 1, in bits — minus (p0 log2 p0 + p1 log2 p1), where the
convention 0 times log2 0 = 0 holds because Real.logb sends 0 to 0
(section 4.2). -/
noncomputable def entropyFormula (c0 c1 : Nat) : ℝ :=
  -(((c0 : ℝ) / ((c0 : ℝ) + (c1 : ℝ))) * Real.logb 2 ((c0 : ℝ) / ((c0 : ℝ) + (c1 : ℝ)))
    + ((c1 : ℝ) / ((c0 : ℝ) + (c1 : ℝ))) * Real.logb 2 ((c1 : ℝ) / ((c0 : ℝ) + (c1 : ℝ))))

/-- Modelled from the spec: calculate_entropy(counts) — InvalidInput when
the total count is 0, the Shannon formula otherwise (section 4.2).  The
quantum_core module holding calculate_entropy was not delivered in the
sources. -/
noncomputable def calculate_entropy (c0 c1 : Nat) : Except CoreError ℝ :=
  if c0 + c1 = 0 then Except.error CoreError.InvalidInput
  else Except.ok (entropyFormula c0 c1)

/-! ### Field lemmas for the E91 result -/

lemma processRounds_total (rounds : List E91Round) :
    (processRounds rounds).total_rounds = rounds.length := rfl

lemma processRounds_sifted (rounds : List E91Round) :
    (processRounds rounds).sifted_key_length = (siftedRounds rounds).length := rfl

lemma processRounds_qber (rounds : List E91Round) :
    (processRounds rounds).qber = e91Qber rounds := rfl

lemma processRounds_secure (rounds : List E91Round) :
    (processRounds rounds).secure = decide (e91Qber rounds < qberThreshold) := rfl

lemma processRounds_shared_key (rounds : List E91Round) :
    (processRounds rounds).shared_key =
      if decide (e91Qber rounds < qberThreshold) then e91Key rounds else "" := rfl

lemma e91Qber_nonneg (rounds : List E91Round) : 0 ≤ e91Qber rounds := by
  unfold e91Qber
  split_ifs with h
  · exact le_refl 0
  · exact div_nonneg (Nat.cast_nonneg _) (Nat.cast_nonneg _)

lemma e91Qber_le_one (rounds : List E91Round) : e91Qber rounds ≤ 1 := by
  unfold e91Qber
  split_ifs with h
  · norm_num
  · have hpos : (0 : ℚ) < ((siftedRounds rounds).length : ℚ) := by
      exact_mod_cast Nat.pos_of_ne_zero h
    rw [div_le_one hpos]
    exact_mod_cast List.countP_le_length _

lemma sifted_30_true : (siftedRounds (idealTape 30 true)).length = 15 := by decide

lemma errors_30_true : errorCount (idealTape 30 true) = 4 := by decide

lemma e91Qber_30_true : e91Qber (idealTape 30 true) = 4 / 15 := by
  unfold e91Qber
  rw [sifted_30_true, errors_30_true]
  norm_num

lemma e91_secure_30_true : (run_e91_protocol 30 true).secure = false := by
  unfold run_e91_protocol
  rw [processRounds_secure, e91Qber_30_true]
  rw [decide_eq_false_iff_not]
  unfold qberThreshold
  norm_num

/-- Claim C1: for every E91 protocol run the security verdict is exactly
qber below 0.11; the key is discarded (empty) whenever the run is insecure;
and the 30-round eavesdropper run has qber at least 0.11, is insecure, and
returns an empty shared key. -/
theorem e91_security_verdict :
    (∀ rounds : List E91Round,
      ((processRounds rounds).secure = true ↔ (processRounds rounds).qber < 11 / 100))
    ∧ (∀ rounds : List E91Round,
      (processRounds rounds).secure = false → (processRounds rounds).shared_key = "")
    ∧ (11 / 100 ≤ (run_e91_protocol 30 true).qber
      ∧ (run_e91_protocol 30 true).secure = false
      ∧ (run_e91_protocol 30 true).shared_key = "") := by
  refine ⟨?_, ?_, ?_, ?_, ?_⟩
  · intro rounds
    rw [processRounds_secure, processRounds_qber, decide_eq_true_eq]
    unfold qberThreshold
    exact Iff.rfl
  · intro rounds h
    rw [processRounds_secure] at h
    rw [processRounds_shared_key, h]
    rfl
  · show 11 / 100 ≤ (processRounds (idealTape 30 true)).qber
    rw [processRounds_qber, e91Qber_30_true]
    norm_num
  · exact e91_secure_30_true
  · show (processRounds (idealTape 30 true)).shared_key = ""
    rw [processRounds_shared_key]
    have h : decide (e91Qber (idealTape 30 true) < qberThreshold) = false :=
      e91_secure_30_true
    rw [h]
    rfl

/-- Claim C1 witness: the key-discard implication instantiated at the
concrete 30-round eavesdropper run. -/
theorem e91_security_verdict_witness :
    (run_e91_protocol 30 true).secure = false
    ∧ (run_e91_protocol 30 true).shared_key = "" :=
  ⟨e91_security_verdict.2.2.2.1,
   e91_security_verdict.2.1 (idealTape 30 true) e91_security_verdict.2.2.2.1⟩

/-- Claim C8: every E91 result has a sifted key no longer than the total
number of rounds, and a qber between 0 and 1, for every number of rounds
and eavesdropper setting. -/
theorem e91_result_invariants :
    ∀ (numRounds : Nat) (eavesdropper : Bool),
      (run_e91_protocol numRounds eavesdropper).sifted_key_length
          ≤ (run_e91_protocol numRounds eavesdropper).total_rounds
      ∧ 0 ≤ (run_e91_protocol numRounds eavesdropper).qber
      ∧ (run_e91_protocol numRounds eavesdropper).qber ≤ 1 := by
  intro n eve
  unfold run_e91_protocol
  rw [processRounds_sifted, processRounds_total, processRounds_qber]
  refine ⟨?_, e91Qber_nonneg _, e91Qber_le_one _⟩
  exact List.length_filter_le _ _

/-! ### CHSH Bell test -/

lemma correlation_le_one (c : PairCounts) : correlation c ≤ 1 := by
  unfold correlation
  split_ifs with h
  · norm_num
  · have hpos : (0 : ℚ) < (c.agree : ℚ) + (c.disagree : ℚ) := by
      exact_mod_cast Nat.pos_of_ne_zero h
    rw [div_le_one hpos]
    have : (0 : ℚ) ≤ (c.disagree : ℚ) := Nat.cast_nonneg _
    linarith

lemma neg_one_le_correlation (c : PairCounts) : -1 ≤ correlation c := by
  unfold correlation
  split_ifs with h
  · norm_num
  · have hpos : (0 : ℚ) < (c.agree : ℚ) + (c.disagree : ℚ) := by
      exact_mod_cast Nat.pos_of_ne_zero h
    rw [le_div_iff₀ hpos]
    have : (0 : ℚ) ≤ (c.agree : ℚ) := Nat.cast_nonneg _
    linarith

lemma bell_S_eq (c : BellCounts) :
    (bell_test_chsh c).S =
      correlation c.ab - correlation c.abp + correlation c.apb + correlation c.apbp := rfl

lemma bell_violation_eq (c : BellCounts) :
    (bell_test_chsh c).bell_violation =
      decide (chshClassicalBound < |(bell_test_chsh c).S|) := rfl

/-- Claim C2: for every run of the CHSH Bell test, S equals
the alternating correlation sum (second minus, rest plus), S lies in
the interval from -4 to 4,
and bell_violation holds exactly when the absolute value of S exceeds 2. -/
theorem chsh_statistic_properties :
    ∀ c : BellCounts,
      (bell_test_chsh c).S =
          (bell_test_chsh c).E_ab - (bell_test_chsh c).E_abp
            + (bell_test_chsh c).E_apb + (bell_test_chsh c).E_apbp
      ∧ (-4 ≤ (bell_test_chsh c).S ∧ (bell_test_chsh c).S ≤ 4)
      ∧ ((bell_test_chsh c).bell_violation = true ↔ 2 < |(bell_test_chsh c).S|) := by
  intro c
  have h1l := neg_one_le_correlation c.ab
  have h1u := correlation_le_one c.ab
  have h2l := neg_one_le_correlation c.abp
  have h2u := correlation_le_one c.abp
  have h3l := neg_one_le_correlation c.apb
  have h3u := correlation_le_one c.apb
  have h4l := neg_one_le_correlation c.apbp
  have h4u := correlation_le_one c.apbp
  refine ⟨rfl, ⟨?_, ?_⟩, ?_⟩
  · rw [bell_S_eq]
    linarith
  · rw [bell_S_eq]
    linarith
  · rw [bell_violation_eq, decide_eq_true_eq]
    unfold chshClassicalBound
    exact Iff.rfl

/-! ### Performance tracker -/

lemma recordAll_total (updates : List (Nat × ℚ)) :
    ∀ t : PerformanceTracker,
      (t.recordAll updates).total_bits_generated
        = t.total_bits_generated + (updates.map Prod.fst).sum := by
  induction updates with
  | nil =>
    intro t
    simp [PerformanceTracker.recordAll]
  | cons u us ih =>
    intro t
    have step : PerformanceTracker.recordAll t (u :: us)
        = PerformanceTracker.recordAll (t.record u.1 u.2) us := rfl
    rw [step, ih]
    simp [PerformanceTracker.record]
    omega

/-- Claim C5: the performance tracker never loses or rolls back an update —
record never decreases the bit total, and any interleaving of k atomic
record calls of n bits each (here: any list of k entropy observations, each
recorded with n bits) leaves the total at exactly k times n. -/
theorem tracker_no_lost_updates :
    (∀ (t : PerformanceTracker) (bits : Nat) (e : ℚ),
      t.total_bits_generated ≤ (t.record bits e).total_bits_generated)
    ∧ ∀ (n : Nat) (es : List ℚ),
      (PerformanceTracker.init.recordAll (es.map fun e => (n, e))).total_bits_generated
        = es.length * n := by
  constructor
  · intro t bits e
    simp [PerformanceTracker.record]
  · intro n es
    rw [recordAll_total]
    simp [PerformanceTracker.init, List.map_map, Function.comp]

/-! ### QRNG bit generation -/

/-- Claim C4: for every positive n, generate_bits(n) returns a sequence of
length exactly n whose every element is the character 0 or 1, for any
measurement tape. -/
theorem generate_bits_length_and_alphabet :
    ∀ (n : Nat) (tape : Nat → Bool), 0 < n →
      (generate_random_bits n tape).length = n
      ∧ ∀ ch ∈ (generate_random_bits n tape).data, ch = '0' ∨ ch = '1' := by
  intro n tape _
  constructor
  · show ((List.range n).map fun i => if tape i then '1' else '0').length = n
    simp
  · intro ch hch
    have hch' : ch ∈ (List.range n).map fun i => if tape i then '1' else '0' := hch
    rcases List.mem_map.mp hch' with ⟨i, -, hi⟩
    by_cases htape : tape i
    · right
      rw [← hi, if_pos htape]
    · left
      rw [← hi, if_neg htape]

/-- Claim C4 witness: the scenario generate_bits(32) on a concrete tape. -/
theorem generate_bits_length_and_alphabet_witness :
    (generate_random_bits 32 (fun i => decide (i % 2 = 0))).length = 32
    ∧ ∀ ch ∈ (generate_random_bits 32 (fun i => decide (i % 2 = 0))).data,
        ch = '0' ∨ ch = '1' :=
  generate_bits_length_and_alphabet 32 (fun i => decide (i % 2 = 0)) (by decide)

/-! ### Encryption round trip -/

lemma xorStream_involution (ks : Nat → Bool) :
    ∀ (m : List Bool) (i : Nat), xorStream ks i (xorStream ks i m) = m := by
  intro m
  induction m with
  | nil => intro i; rfl
  | cons b bs ih =>
    intro i
    show (xor (xor b (ks i)) (ks i)) :: xorStream ks (i + 1) (xorStream ks (i + 1) bs)
        = b :: bs
    rw [ih (i + 1)]
    cases b <;> cases hk : ks i <;> simp

/-- Claim C7: for every key, nonce and message, decrypting the ciphertext
produced by encrypt under the key set by set_key returns the message
unchanged, bit-exact. -/
theorem encrypt_decrypt_roundtrip :
    ∀ (keyBits : List Bool) (nonce : Nat) (m : List Bool),
      decrypt (set_key keyBits) nonce (encrypt (set_key keyBits) nonce m) = m := by
  intro keyBits nonce m
  unfold decrypt encrypt
  exact xorStream_involution _ m 0

/-! ### Shannon entropy -/

lemma entropyFormula_n_zero (n : Nat) (hn : 0 < n) : entropyFormula n 0 = 0 := by
  have hne : ((n : ℝ) ≠ 0) := Nat.cast_ne_zero.mpr hn.ne'
  unfold entropyFormula
  simp [hne, div_self]

lemma entropyFormula_half (m : Nat) (hm : 0 < m) : entropyFormula m m = 1 := by
  have hne : ((m : ℝ) ≠ 0) := Nat.cast_ne_zero.mpr hm.ne'
  have hp : (m : ℝ) / ((m : ℝ) + (m : ℝ)) = 1 / 2 := by
    field_simp
    ring
  unfold entropyFormula
  rw [hp]
  have hlog : Real.logb 2 (1 / 2) = -1 := by
    rw [one_div, Real.logb_inv, Real.logb_self_eq_one (by norm_num)]
  rw [hlog]
  norm_num

lemma entropyFormula_eq_binEntropy (c0 c1 : Nat) (h : c0 + c1 ≠ 0) :
    entropyFormula c0 c1
      = Real.binEntropy ((c0 : ℝ) / ((c0 : ℝ) + (c1 : ℝ))) / Real.log 2 := by
  have h0 : 0 < c0 + c1 := Nat.pos_of_ne_zero h
  have htot : (0 : ℝ) < (c0 : ℝ) + (c1 : ℝ) := by exact_mod_cast h0
  have hp1 : (c1 : ℝ) / ((c0 : ℝ) + (c1 : ℝ))
      = 1 - (c0 : ℝ) / ((c0 : ℝ) + (c1 : ℝ)) := by
    field_simp
  unfold entropyFormula Real.binEntropy
  rw [hp1]
  simp only [Real.logb, Real.log_inv]
  ring

/-- Claim C3: entropy(counts) is the Shannon formula on the counts
normalized to sum 1 (the 0 log2 0 = 0 convention holding because log
vanishes at 0); entropy of (n, 0) is 0 for every positive n, and entropy of
the balanced counts (m, m) — that is, (n/2, n/2) for even n — is exactly 1. -/
theorem entropy_matches_shannon_formula :
    (∀ c0 c1 : Nat, c0 + c1 ≠ 0 →
      calculate_entropy c0 c1 =
        Except.ok (-(((c0 : ℝ) / ((c0 : ℝ) + (c1 : ℝ)))
              * Real.logb 2 ((c0 : ℝ) / ((c0 : ℝ) + (c1 : ℝ)))
            + ((c1 : ℝ) / ((c0 : ℝ) + (c1 : ℝ)))
              * Real.logb 2 ((c1 : ℝ) / ((c0 : ℝ) + (c1 : ℝ))))))
    ∧ (∀ n : Nat, 0 < n → calculate_entropy n 0 = Except.ok 0)
    ∧ (∀ m : Nat, 0 < m → calculate_entropy m m = Except.ok 1) := by
  refine ⟨?_, ?_, ?_⟩
  · intro c0 c1 h
    unfold calculate_entropy
    rw [if_neg h]
    rfl
  · intro n hn
    unfold calculate_entropy
    rw [if_neg (by omega)]
    rw [entropyFormula_n_zero n hn]
  · intro m hm
    unfold calculate_entropy
    rw [if_neg (by omega)]
    rw [entropyFormula_half m hm]

/-- Claim C3 witness: the test scenarios — entropy of (1024, 0) is 0 and
entropy of (512, 512) is 1. -/
theorem entropy_matches_shannon_formula_witness :
    calculate_entropy 1024 0 = Except.ok 0
    ∧ calculate_entropy 512 512 = Except.ok 1 :=
  ⟨entropy_matches_shannon_formula.2.1 1024 (by norm_num),
   entropy_matches_shannon_formula.2.2 512 (by norm_num)⟩

/-- Claim C9: calculate_entropy fails with InvalidInput exactly when the
total count is 0, and on every positive total it returns a value between
0 and 1. -/
theorem entropy_domain_and_range :
    (∀ c0 c1 : Nat,
      (calculate_entropy c0 c1 = Except.error CoreError.InvalidInput ↔ c0 + c1 = 0))
    ∧ ∀ c0 c1 : Nat, 0 < c0 + c1 →
        ∃ v : ℝ, calculate_entropy c0 c1 = Except.ok v ∧ 0 ≤ v ∧ v ≤ 1 := by
  constructor
  · intro c0 c1
    unfold calculate_entropy
    split_ifs with h
    · simp [h]
    · simp [h]
  · intro c0 c1 h
    have hne : c0 + c1 ≠ 0 := h.ne'
    have htot : (0 : ℝ) < (c0 : ℝ) + (c1 : ℝ) := by exact_mod_cast h
    refine ⟨entropyFormula c0 c1, ?_, ?_, ?_⟩
    · unfold calculate_entropy
      rw [if_neg hne]
    · rw [entropyFormula_eq_binEntropy c0 c1 hne]
      have hp0l : 0 ≤ (c0 : ℝ) / ((c0 : ℝ) + (c1 : ℝ)) :=
        div_nonneg (Nat.cast_nonneg _) htot.le
      have hp0u : (c0 : ℝ) / ((c0 : ℝ) + (c1 : ℝ)) ≤ 1 := by
        rw [div_le_one htot]
        have hc1 : (0 : ℝ) ≤ (c1 : ℝ) := Nat.cast_nonneg _
        linarith
      exact div_nonneg (Real.binEntropy_nonneg hp0l hp0u)
        (Real.log_nonneg (by norm_num))
    · rw [entropyFormula_eq_binEntropy c0 c1 hne]
      rw [div_le_one (Real.log_pos (by norm_num))]
      exact Real.binEntropy_le_log_two

/-- Claim C9 witness: the positive-total branch at the concrete counts
(512, 512). -/
theorem entropy_domain_and_range_witness :
    ∃ v : ℝ, calculate_entropy 512 512 = Except.ok v ∧ 0 ≤ v ∧ v ≤ 1 :=
  entropy_domain_and_range.2 512 512 (by norm_num)

/-! ### The delivered transaction endpoints -/

lemma server_qber_ge_threshold_iff (a : Bool) :
    qberThreshold ≤ server_qber a ↔ a = true := by
  cases a
  · simp only [server_qber, if_false]
    unfold qberThreshold
    norm_num
  · simp only [server_qber, if_true]
    unfold qberThreshold
    norm_num

lemma defense_qber_ge_threshold_iff (a : Bool) :
    qberThreshold ≤ defense_qber a ↔ a = true := by
  cases a
  · simp only [defense_qber, if_false]
    unfold qberThreshold
    norm_num
  · simp only [defense_qber, if_true]
    unfold qberThreshold
    norm_num

lemma process_transaction_status {α : Type} (r : TxRequest α) :
    (process_transaction r).status =
      if r.attack then (if r.mode = "quantum" then "defended" else "hacked")
      else "success" := by
  by_cases h : r.mode = "quantum" <;> cases ha : r.attack <;>
    simp [process_transaction, h, ha]

lemma transmit_intel_status {α : Type} (r : TxRequest α) :
    (transmit_intel r).status =
      if r.attack then (if r.mode = "quantum" then "defended" else "hacked")
      else "success" := by
  by_cases h : r.mode = "quantum" <;> cases ha : r.attack <;>
    simp [transmit_intel, h, ha]

lemma process_transaction_code {α : Type} (r : TxRequest α) :
    (process_transaction r).code = 200 := by
  by_cases h : r.mode = "quantum" <;> cases ha : r.attack <;>
    simp [process_transaction, h, ha]

lemma transmit_intel_code {α : Type} (r : TxRequest α) :
    (transmit_intel r).code = 200 := by
  by_cases h : r.mode = "quantum" <;> cases ha : r.attack <;>
    simp [transmit_intel, h, ha]

/-- Claim C6: on both delivered endpoints, an insecure protocol verdict —
the reported QBER at or above the 0.11 threshold, which happens exactly in
quantum mode under attack — is returned as a normal result value (HTTP 200,
structured status "defended"), never through the error channel; and every
request, whatever its mode and attack, gets a normal HTTP 200 response. -/
theorem insecure_verdict_is_normal_result :
    (∀ (α : Type) (r : TxRequest α),
      r.mode = "quantum" → qberThreshold ≤ server_qber r.attack →
      process_transaction r =
        { code := 200, status := "defended",
          message := "QBER Spike Detected. Keys Discarded." })
    ∧ (∀ (α : Type) (r : TxRequest α),
      r.mode = "quantum" → qberThreshold ≤ defense_qber r.attack →
      transmit_intel r =
        { code := 200, status := "defended",
          message := "HOSTILE INTERCEPT DETECTED. LINK CUT." })
    ∧ ∀ (α : Type) (r : TxRequest α),
        (process_transaction r).code = 200 ∧ (transmit_intel r).code = 200 := by
  refine ⟨?_, ?_, ?_⟩
  · intro α r hmode hq
    have ha : r.attack = true := (server_qber_ge_threshold_iff r.attack).mp hq
    simp [process_transaction, hmode, ha]
  · intro α r hmode hq
    have ha : r.attack = true := (defense_qber_ge_threshold_iff r.attack).mp hq
    simp [transmit_intel, hmode, ha]
  · intro α r
    exact ⟨process_transaction_code r, transmit_intel_code r⟩

/-- Claim C6 witness: the quantum-mode request under attack on both
endpoints. -/
theorem insecure_verdict_is_normal_result_witness :
    process_transaction (TxRequest.mk "quantum" true ()) =
      { code := 200, status := "defended",
        message := "QBER Spike Detected. Keys Discarded." }
    ∧ transmit_intel (TxRequest.mk "quantum" true ()) =
      { code := 200, status := "defended",
        message := "HOSTILE INTERCEPT DETECTED. LINK CUT." } :=
  ⟨insecure_verdict_is_normal_result.1 Unit (TxRequest.mk "quantum" true ()) rfl
      (by unfold qberThreshold server_qber; norm_num),
   insecure_verdict_is_normal_result.2.1 Unit (TxRequest.mk "quantum" true ()) rfl
      (by unfold qberThreshold defense_qber; norm_num)⟩

/-- Claim C10: on both delivered endpoints, the status field of the
response depends only on the mode and attack fields of the request — two
requests agreeing on those, even with different payloads of different
types, receive the same status — and the status is "defended" in quantum
mode under attack, "hacked" in non-quantum mode under attack, "success"
otherwise, always with HTTP code 200. -/
theorem transmission_status_noninterference :
    (∀ (α β : Type) (r1 : TxRequest α) (r2 : TxRequest β),
      r1.mode = r2.mode → r1.attack = r2.attack →
      (process_transaction r1).status = (process_transaction r2).status
      ∧ (transmit_intel r1).status = (transmit_intel r2).status)
    ∧ ∀ (α : Type) (r : TxRequest α),
        (process_transaction r).status =
          (if r.attack then (if r.mode = "quantum" then "defended" else "hacked")
            else "success")
        ∧ (transmit_intel r).status =
          (if r.attack then (if r.mode = "quantum" then "defended" else "hacked")
            else "success")
        ∧ (process_transaction r).code = 200
        ∧ (transmit_intel r).code = 200 := by
  constructor
  · intro α β r1 r2 hmode hattack
    constructor
    · rw [process_transaction_status, process_transaction_status, hmode, hattack]
    · rw [transmit_intel_status, transmit_intel_status, hmode, hattack]
  · intro α r
    exact ⟨process_transaction_status r, transmit_intel_status r,
      process_transaction_code r, transmit_intel_code r⟩

/-- Claim C10 witness: two quantum-mode attack requests with different
payload types get the same status on both endpoints. -/
theorem transmission_status_noninterference_witness :
    ((process_transaction (TxRequest.mk "quantum" true (0 : Nat))).status
        = (process_transaction (TxRequest.mk "quantum" true "other payload")).status)
    ∧ ((transmit_intel (TxRequest.mk "quantum" true (0 : Nat))).status
        = (transmit_intel (TxRequest.mk "quantum" true "other payload")).status) :=
  transmission_status_noninterference.1 Nat String
    (TxRequest.mk "quantum" true 0) (TxRequest.mk "quantum" true "other payload")
    rfl rfl
